import Mathlib

/- Shallow embedding of the aspen-api client (gusruben/aspen-api).

   The HTML-parse-and-query facility (JSDOM) is an external collaborator of
   the library, so pages are modelled at the exact boundary the code
   consumes them: lists of table rows, each row a list of cell text
   contents, plus -- where the code reads more than textContent -- the extra
   attributes it reads (a nested input id, a style attribute, the td texts
   of a nested sub-table, a border flag on a structural ancestor).

   JavaScript numbers are modelled as rationals, with NaN represented
   explicitly; undefined and null are represented explicitly where the code
   distinguishes them.  Number() and parseFloat() are modelled on the
   decimal literals the pages actually contain (optional sign, integer and
   fractional digits); String.prototype.trim() is modelled on ASCII
   whitespace. -/

/-! ### JavaScript string and number primitives -/

def isSpaceChar (c : Char) : Bool :=
  c == ' ' || c == '\t' || c == '\n' || c == '\r'

def trimChars (l : List Char) : List Char :=
  ((l.dropWhile isSpaceChar).reverse.dropWhile isSpaceChar).reverse

/-- JS String.prototype.trim(). -/
def jsTrim (s : String) : String := String.mk (trimChars s.toList)

/-- JS s.slice(0, -1): drop the final character. -/
def dropLastChar (s : String) : String := String.mk s.toList.dropLast

/-- JS s.slice(1, -1): drop the first and final characters. -/
def sliceInner (s : String) : String := String.mk ((s.toList.drop 1).dropLast)

/- Rational arithmetic written through Rat.divInt so that every concrete
   computation reduces inside the kernel; the lemmas qadd_eq, qmul_eq and
   qdiv_eq below identify these with the field operations of ℚ. -/

def qadd (x y : ℚ) : ℚ :=
  Rat.divInt (x.num * (y.den : ℤ) + y.num * (x.den : ℤ)) ((x.den : ℤ) * (y.den : ℤ))

def qmul (x y : ℚ) : ℚ := Rat.divInt (x.num * y.num) ((x.den : ℤ) * (y.den : ℤ))

def qdiv (x y : ℚ) : ℚ := Rat.divInt (x.num * (y.den : ℤ)) ((x.den : ℤ) * y.num)

theorem qadd_eq (x y : ℚ) : qadd x y = x + y := by
  rw [qadd, ← Rat.divInt_add_divInt x.num y.num (Int.natCast_ne_zero.mpr x.den_nz)
      (Int.natCast_ne_zero.mpr y.den_nz), Rat.num_divInt_den, Rat.num_divInt_den]

theorem qmul_eq (x y : ℚ) : qmul x y = x * y := by
  rw [qmul, ← Rat.divInt_mul_divInt x.num y.num (Int.natCast_ne_zero.mpr x.den_nz)
      (Int.natCast_ne_zero.mpr y.den_nz), Rat.num_divInt_den, Rat.num_divInt_den]

theorem qdiv_eq (x y : ℚ) : qdiv x y = x / y := by
  rcases eq_or_ne y 0 with hy | hy
  · subst hy
    rw [qdiv, div_zero]
    simp
  · have hn : y.num ≠ 0 := Rat.num_ne_zero.mpr hy
    rw [qdiv, Rat.div_def, Rat.inv_def,
      ← Rat.divInt_mul_divInt x.num (y.den : ℤ) (Int.natCast_ne_zero.mpr x.den_nz) hn,
      Rat.num_divInt_den]

def natOfDigits (ds : List Nat) : Nat := ds.foldl (fun acc d => 10 * acc + d) 0

def fracOfDigits (ds : List Nat) : ℚ := ds.foldr (fun d acc => qdiv (qadd (d : ℚ) acc) 10) 0

def takeDigits : List Char → List Nat × List Char
  | [] => ([], [])
  | c :: rest =>
    if c.isDigit then
      let p := takeDigits rest
      ((c.toNat - 48) :: p.1, p.2)
    else ([], c :: rest)

/-- Parse an unsigned decimal literal prefix: digits, or digits.digits,
    or .digits; returns the value and the unconsumed characters. -/
def parseUnsigned (cs : List Char) : Option (ℚ × List Char) :=
  let p := takeDigits cs
  match p.2 with
  | '.' :: r2 =>
    let q := takeDigits r2
    if p.1.isEmpty && q.1.isEmpty then none
    else some (qadd (natOfDigits p.1 : ℚ) (fracOfDigits q.1), q.2)
  | _ => if p.1.isEmpty then none else some ((natOfDigits p.1 : ℚ), p.2)

def parseSigned (cs : List Char) : Option (ℚ × List Char) :=
  match cs with
  | '-' :: r => (parseUnsigned r).map (fun p => (-p.1, p.2))
  | '+' :: r => parseUnsigned r
  | _ => parseUnsigned cs

/-- JS Number.parseFloat: skip leading whitespace, parse the longest
    numeric prefix; none models NaN (no digits at all). -/
def jsParseFloat (s : String) : Option ℚ :=
  (parseSigned (s.toList.dropWhile isSpaceChar)).map Prod.fst

/-- JS Number(): the whole trimmed string must be a numeric literal;
    the empty (or all-whitespace) string converts to 0; none models NaN. -/
def jsNumber (s : String) : Option ℚ :=
  let t := trimChars s.toList
  if t.isEmpty then some 0
  else
    match parseSigned t with
    | some (q, []) => some q
    | _ => none

def inclChars (needle : List Char) : List Char → Bool
  | [] => needle.isEmpty
  | c :: rest => (List.take needle.length (c :: rest) == needle) || inclChars needle rest

/-- JS String.prototype.includes. -/
def jsIncludes (hay sub : String) : Bool := inclChars sub.toList hay.toList

/-- JS String.prototype.split with a non-empty string separator, written
    with a length fuel so that every call reduces structurally; each step
    consumes at least one character, so the fuel never runs out. -/
def splitStrAux (sep : List Char) : Nat → List Char → List (List Char)
  | _, [] => [[]]
  | 0, l => [l]
  | fuel + 1, c :: rest =>
    if sep.length > 0 && List.take sep.length (c :: rest) == sep then
      [] :: splitStrAux sep fuel (List.drop sep.length (c :: rest))
    else
      let r := splitStrAux sep fuel rest
      (c :: r.headD []) :: r.tail

def jsSplit (s sep : String) : List String :=
  (splitStrAux sep.toList s.toList.length s.toList).map String.mk

/-! ### JavaScript values and arithmetic for the grades computation -/

/-- The JS values that flow through the getClass grades computation:
    undefined (a field never assigned), null (the explicit absence-of-grade
    marker decoded from an empty cell), NaN (a failed numeric parse), or a
    number. -/
inductive JVal where
  | undef
  | null
  | nan
  | num (q : ℚ)
deriving DecidableEq

/-- JS ToNumber coercion as used by the arithmetic operators:
    undefined and NaN give NaN (none), null gives 0. -/
def toNum : JVal → Option ℚ
  | .undef => none
  | .nan => none
  | .null => some 0
  | .num q => some q

def jsMul (a b : JVal) : JVal :=
  match toNum a, toNum b with
  | some x, some y => .num (qmul x y)
  | _, _ => .nan

def jsAdd (a b : JVal) : JVal :=
  match toNum a, toNum b with
  | some x, some y => .num (qadd x y)
  | _, _ => .nan

/-- JS division; the only divisor in the modelled code is the literal 100,
    so division by zero (Infinity) never arises. -/
def jsDiv (a b : JVal) : JVal :=
  match toNum a, toNum b with
  | some x, some y => .num (qdiv x y)
  | _, _ => .nan

/-! ### getClass: the grades grid (#dataGridRight) -/

/-- One cell of the grades grid, decoded exactly as in getClass:
    `let val = null; if (textContent.trim()) val = parseFloat(trim.slice(0,-1))`.
    An empty (falsy) trimmed text decodes to null; otherwise the final
    character (the percent sign) is stripped and the rest parseFloat-ed. -/
def decodeGradeCell (s : String) : JVal :=
  let t := jsTrim s
  if t.isEmpty then .null
  else
    match jsParseFloat (dropLastChar t) with
    | none => .nan
    | some q => .num q

structure GradeWeights where
  assessments : JVal
  participation : JVal
  practiceAndApplication : JVal
deriving DecidableEq

structure TermGrades where
  weights : GradeWeights
  assessments : JVal
  participation : JVal
  practiceAndApplication : JVal
  total : JVal
deriving DecidableEq

/-- `{ weights: {} }`: every field starts out unassigned (undefined). -/
def initTermGrades : TermGrades :=
  ⟨⟨.undef, .undef, .undef⟩, .undef, .undef, .undef, .undef⟩

/-- The grades object `{1: {weights:{}}, 2: ..., 3: ..., 4: ...}`,
    modelled as an association list so that its key set is observable. -/
abbrev GradesTable := List (Nat × TermGrades)

def initGrades : GradesTable :=
  [(1, initTermGrades), (2, initTermGrades), (3, initTermGrades), (4, initTermGrades)]

/-- Write a category weight.  Category indices beyond 2 correspond to
    `gradeCategories[i]` being undefined in JS, which writes a stray
    "undefined" key outside the declared TermGrades type; no declared field
    changes, so the model leaves the record unchanged. -/
def updWeight (t : TermGrades) (cat : Nat) (v : JVal) : TermGrades :=
  match cat with
  | 0 => { t with weights := { t.weights with assessments := v } }
  | 1 => { t with weights := { t.weights with participation := v } }
  | 2 => { t with weights := { t.weights with practiceAndApplication := v } }
  | _ => t

def updScore (t : TermGrades) (cat : Nat) (v : JVal) : TermGrades :=
  match cat with
  | 0 => { t with assessments := v }
  | 1 => { t with participation := v }
  | 2 => { t with practiceAndApplication := v }
  | _ => t

/-- Update the entry for term key k in place; a key that is not present is
    left alone (in JS, `classData.grades[k]` would be undefined there and
    the property write would throw, which no well-formed page triggers). -/
def setTerm (g : GradesTable) (k : Nat) (f : TermGrades → TermGrades) : GradesTable :=
  g.map (fun p => if p.1 == k then (p.1, f p.2) else p)

/-- One row of the grades grid, exactly as in getClass: cells after the
    first label are visited with index `term`; even rows are weight rows
    (their first sliced cell is the category label, skipped by the
    decrement-and-return), odd rows are score rows written to term+1. -/
def processGradeRow (g : GradesTable) (rowIndex : Nat) (row : List String) : GradesTable :=
  let cat := rowIndex / 2
  (row.drop 1).enum.foldl
    (fun acc cell =>
      let val := decodeGradeCell cell.2
      if rowIndex % 2 == 0 then
        if cell.1 == 0 then acc
        else setTerm acc cell.1 (fun t => updWeight t cat val)
      else setTerm acc (cell.1 + 1) (fun t => updScore t cat val))
    g

/-- `.slice(0, -1)` applied to the list of #dataGridRight tr.listCell rows:
    drops exactly the final row. -/
def gradeDataRows (rows : List (List String)) : List (List String) := rows.dropLast

def decodeGrades (rows : List (List String)) : GradesTable :=
  (gradeDataRows rows).enum.foldl (fun g r => processGradeRow g r.1 r.2) initGrades

/-- The per-term total:
    `(assessments*weights.assessments + participation*weights.participation
      + practiceAndApplication*weights.practiceAndApplication) / 100`. -/
def computeTotal (t : TermGrades) : TermGrades :=
  { t with
    total := jsDiv
      (jsAdd
        (jsAdd (jsMul t.assessments t.weights.assessments)
          (jsMul t.participation t.weights.participation))
        (jsMul t.practiceAndApplication t.weights.practiceAndApplication))
      (JVal.num 100) }

/-- The grades portion of getClass: decode the grid rows, then add the
    total into every term entry (the Object.keys forEach). -/
def getClassGrades (rows : List (List String)) : GradesTable :=
  (decodeGrades rows).map (fun p => (p.1, computeTotal p.2))

/-! ### Demonstration pages for the grades grid -/

/-- The six data rows of a grades grid: three categories, alternating
    weight row (row label, category label, four term cells) and score row
    (row label, four term cells). -/
def demoSixRows : List (List String) :=
  [["Weight", "Assessments", "50.0%", "50.0%", "50.0%", "50.0%"],
   ["Avg", "90.0%", "90.0%", "90.0%", "90.0%"],
   ["Weight", "Participation", "30.0%", "30.0%", "30.0%", "30.0%"],
   ["Avg", "80.0%", "80.0%", "80.0%", "80.0%"],
   ["Weight", "Practice and Application", "20.0%", "20.0%", "20.0%", "20.0%"],
   ["Avg", "70.0%", "70.0%", "70.0%", "70.0%"]]

/-- A full #dataGridRight row list as rendered on the class detail page:
    six data rows followed by the two non-data summary rows. -/
def demoGradeRows : List (List String) :=
  demoSixRows ++
  [["Gradebook Average", "83.0%", "83.0%", "83.0%", "83.0%"],
   ["Last Posted Grade", "B", "B", "B", "B"]]

def demoTerm1 : TermGrades :=
  ⟨⟨.num 50, .num 30, .num 20⟩, .num 90, .num 80, .num 70, .num 83⟩

/-- A grades grid whose three score rows have empty term cells (no grade
    posted yet) while the weight rows are populated. -/
def demoBlankScoreRows : List (List String) :=
  [["Weight", "Assessments", "50.0%", "50.0%", "50.0%", "50.0%"],
   ["Avg", "", "", "", ""],
   ["Weight", "Participation", "30.0%", "30.0%", "30.0%", "30.0%"],
   ["Avg", "", "", "", ""],
   ["Weight", "Practice and Application", "20.0%", "20.0%", "20.0%", "20.0%"],
   ["Avg", "", "", "", ""],
   ["Last Posted Grade", "B", "B", "B", "B"]]

def demoTermBlank : TermGrades :=
  ⟨⟨.num 50, .num 30, .num 20⟩, .null, .null, .null, .num 0⟩

/-! ### Theorems about the getClass total computation -/

theorem lookup_map_total (l : List (Nat × TermGrades)) (k : Nat)
    (f : TermGrades → TermGrades) :
    List.lookup k (l.map (fun p => (p.1, f p.2))) = (List.lookup k l).map f := by
  induction l with
  | nil => rfl
  | cons h t ih =>
    cases hk : k == h.1 <;> simp [List.lookup, hk, ih]

theorem getClassGrades_lookup (rows : List (List String)) (k : Nat) (t : TermGrades)
    (hmem : (getClassGrades rows).lookup k = some t) :
    ∃ t0, (decodeGrades rows).lookup k = some t0 ∧ t = computeTotal t0 := by
  rw [getClassGrades, lookup_map_total] at hmem
  rcases Option.map_eq_some'.mp hmem with ⟨t0, h1, h2⟩
  exact ⟨t0, h1, h2.symm⟩

/-- C1: for every class-detail result and every term entry whose three
    category scores and three weights are numbers a, p, r, wa, wp, wr, the
    computed total is (a*wa + p*wp + r*wr) / 100. -/
theorem getClass_total_weighted_formula (rows : List (List String)) (k : Nat)
    (t : TermGrades) (a p r wa wp wr : ℚ)
    (hmem : (getClassGrades rows).lookup k = some t)
    (ha : t.assessments = JVal.num a)
    (hp : t.participation = JVal.num p)
    (hr : t.practiceAndApplication = JVal.num r)
    (hwa : t.weights.assessments = JVal.num wa)
    (hwp : t.weights.participation = JVal.num wp)
    (hwr : t.weights.practiceAndApplication = JVal.num wr) :
    t.total = JVal.num ((a * wa + p * wp + r * wr) / 100) := by
  rcases getClassGrades_lookup rows k t hmem with ⟨t0, -, ht⟩
  subst ht
  simp only [computeTotal] at ha hp hr hwa hwp hwr ⊢
  rw [ha, hp, hr, hwa, hwp, hwr]
  simp [jsMul, jsAdd, jsDiv, toNum, qmul_eq, qadd_eq, qdiv_eq]

/-- C1 witness: on a concrete grades grid (with its two summary rows), the
    term-1 entry satisfies the weighted-sum formula. -/
theorem getClass_total_weighted_formula_witness :
    (getClassGrades demoGradeRows).lookup 1 = some demoTerm1 ∧
    demoTerm1.total = JVal.num ((90 * 50 + 80 * 30 + 70 * 20) / 100) :=
  ⟨rfl, getClass_total_weighted_formula demoGradeRows 1 demoTerm1 90 80 70 50 30 20
    rfl rfl rfl rfl rfl rfl rfl⟩

/-- A value that has actually been assigned from a decoded grid cell:
    either the null absence marker or a number (never undefined, and not a
    failed parse). -/
def presentVal : JVal → Bool
  | .null => true
  | .num _ => true
  | .undef => false
  | .nan => false

theorem presentVal_toNum (v : JVal) (h : presentVal v = true) :
    ∃ x, toNum v = some x := by
  cases v <;> simp [presentVal, toNum] at h ⊢

theorem toNum_num (q : ℚ) : toNum (JVal.num q) = some q := rfl

/-- C2: every term entry of a class-detail result whose category scores and
    weights come from decoded cells (numeric or the null absence marker, in
    any combination) has a numeric total: never undefined, never null. -/
theorem getClass_total_defined (rows : List (List String)) (k : Nat)
    (t : TermGrades)
    (hmem : (getClassGrades rows).lookup k = some t)
    (h1 : presentVal t.assessments = true)
    (h2 : presentVal t.participation = true)
    (h3 : presentVal t.practiceAndApplication = true)
    (h4 : presentVal t.weights.assessments = true)
    (h5 : presentVal t.weights.participation = true)
    (h6 : presentVal t.weights.practiceAndApplication = true) :
    ∃ q, t.total = JVal.num q := by
  rcases getClassGrades_lookup rows k t hmem with ⟨t0, -, ht⟩
  subst ht
  simp only [computeTotal] at h1 h2 h3 h4 h5 h6 ⊢
  rcases presentVal_toNum _ h1 with ⟨x1, e1⟩
  rcases presentVal_toNum _ h2 with ⟨x2, e2⟩
  rcases presentVal_toNum _ h3 with ⟨x3, e3⟩
  rcases presentVal_toNum _ h4 with ⟨y1, e4⟩
  rcases presentVal_toNum _ h5 with ⟨y2, e5⟩
  rcases presentVal_toNum _ h6 with ⟨y3, e6⟩
  exact ⟨qdiv (qadd (qadd (qmul x1 y1) (qmul x2 y2)) (qmul x3 y3)) 100,
    by simp [jsMul, jsAdd, jsDiv, toNum_num, e1, e2, e3, e4, e5, e6]⟩

/-- C2 witness: a term whose three score cells were empty still gets a
    numeric total. -/
theorem getClass_total_defined_witness :
    ∃ q, demoTermBlank.total = JVal.num q :=
  getClass_total_defined demoBlankScoreRows 2 demoTermBlank rfl
    rfl rfl rfl rfl rfl rfl

/-- C10: a term whose three category scores are the null absence marker and
    whose three weights are numbers has total exactly 0. -/
theorem getClass_total_zero_when_absent (rows : List (List String)) (k : Nat)
    (t : TermGrades) (wa wp wr : ℚ)
    (hmem : (getClassGrades rows).lookup k = some t)
    (ha : t.assessments = JVal.null)
    (hp : t.participation = JVal.null)
    (hr : t.practiceAndApplication = JVal.null)
    (hwa : t.weights.assessments = JVal.num wa)
    (hwp : t.weights.participation = JVal.num wp)
    (hwr : t.weights.practiceAndApplication = JVal.num wr) :
    t.total = JVal.num 0 := by
  rcases getClassGrades_lookup rows k t hmem with ⟨t0, -, ht⟩
  subst ht
  simp only [computeTotal] at ha hp hr hwa hwp hwr ⊢
  rw [ha, hp, hr, hwa, hwp, hwr]
  simp [jsMul, jsAdd, jsDiv, toNum, qmul_eq, qadd_eq, qdiv_eq]

/-- C10 witness: on a concrete grid whose score cells are all empty, term 3
    decodes to null scores and numeric weights, and its total is 0. -/
theorem getClass_total_zero_when_absent_witness :
    (getClassGrades demoBlankScoreRows).lookup 3 = some demoTermBlank ∧
    demoTermBlank.total = JVal.num 0 :=
  ⟨rfl, getClass_total_zero_when_absent demoBlankScoreRows 3 demoTermBlank 50 30 20
    rfl rfl rfl rfl rfl rfl rfl⟩

/-! ### getClass: the attendance grid (#dataGridLeft) -/

/-- The keys of a per-type attendance object: the code writes
    `term = valIndex == 4 ? "total" : valIndex`, so the numeric keys are
    the raw zero-based cell indices. -/
inductive AKey where
  | idx (n : Nat)
  | total
deriving DecidableEq

/-- JS object property write: update an existing key in place, else append
    (insertion order preserved). -/
def upsert (l : List (AKey × Option ℚ)) (k : AKey) (v : Option ℚ) :
    List (AKey × Option ℚ) :=
  match l with
  | [] => [(k, v)]
  | p :: rest => if p.1 = k then (p.1, v) :: rest else p :: upsert rest k v

/-- One attendance row: skip the label cell, then
    `attendance[field][valIndex == 4 ? "total" : valIndex] = Number(text)`. -/
def processAttendanceRow (row : List String) : List (AKey × Option ℚ) :=
  (row.drop 1).enum.foldl
    (fun acc cell =>
      upsert acc (if cell.1 == 4 then AKey.total else AKey.idx cell.1) (jsNumber cell.2))
    []

structure Attendance where
  absent : List (AKey × Option ℚ)
  tardy : List (AKey × Option ℚ)
  dismissed : List (AKey × Option ℚ)
deriving DecidableEq

/-- The attendance portion of getClass: rows 0, 1, 2 are keyed by
    attendanceFields = [absent, tardy, dismissed]; for any further row the
    JS writes an "undefined" key outside the declared Attendance type, so
    the modelled record is unchanged. -/
def getClassAttendance (rows : List (List String)) : Attendance :=
  rows.enum.foldl
    (fun att r =>
      match r.1 with
      | 0 => { att with absent := processAttendanceRow r.2 }
      | 1 => { att with tardy := processAttendanceRow r.2 }
      | 2 => { att with dismissed := processAttendanceRow r.2 }
      | _ => att)
    ⟨[], [], []⟩

/-- A concrete attendance grid: three rows (absent, tardy, dismissed), each
    a label cell followed by four term cells and a total cell. -/
def demoAttendanceRows : List (List String) :=
  [["Absent", "1", "0", "2", "0", "3"],
   ["Tardy", "0", "0", "1", "0", "1"],
   ["Dismissed", "0", "0", "0", "0", "0"]]

/-! ### Theorems about term keys (C3) and the summary-row slice (C4) -/

theorem setTerm_keys (g : GradesTable) (k : Nat) (f : TermGrades → TermGrades) :
    (setTerm g k f).map Prod.fst = g.map Prod.fst := by
  induction g with
  | nil => rfl
  | cons p t ih =>
    simp only [setTerm, List.map_cons] at ih ⊢
    cases hp : p.1 == k <;>
      (simp [hp, ih]; intro a b _; split <;> rfl)

theorem processGradeRow_keys (rowIndex : Nat) (row : List String) (g : GradesTable) :
    (processGradeRow g rowIndex row).map Prod.fst = g.map Prod.fst := by
  rw [processGradeRow]
  generalize (row.drop 1).enum = cells
  induction cells generalizing g with
  | nil => rfl
  | cons c rest ih =>
    rw [List.foldl_cons, ih]
    cases hmod : rowIndex % 2 == 0 <;> cases hc : c.1 == 0 <;>
      simp [hmod, hc, setTerm_keys]

theorem decodeGrades_keys (rows : List (List String)) :
    (decodeGrades rows).map Prod.fst = [1, 2, 3, 4] := by
  rw [decodeGrades]
  generalize (gradeDataRows rows).enum = rs
  have h : ∀ (l : List (Nat × List String)) (g : GradesTable),
      (l.foldl (fun g r => processGradeRow g r.1 r.2) g).map Prod.fst = g.map Prod.fst := by
    intro l
    induction l with
    | nil => intro g; rfl
    | cons r rest ih =>
      intro g
      rw [List.foldl_cons, ih, processGradeRow_keys]
  rw [h]
  rfl

/-- The grade term keys of every class-detail result are exactly 1, 2, 3, 4
    (fixed by the initializer; every decoded write updates in place). -/
theorem getClassGrades_keys (rows : List (List String)) :
    (getClassGrades rows).map Prod.fst = [1, 2, 3, 4] := by
  rw [getClassGrades, List.map_map]
  have : (Prod.fst ∘ fun p : Nat × TermGrades => (p.1, computeTotal p.2)) = Prod.fst := by
    funext p
    rfl
  rw [this, decodeGrades_keys]

/-- C3 counterexample: on a concrete attendance grid the per-type counts
    are keyed by 0, 1, 2, 3 and "total" -- the key 4 is absent, so the term
    indices are not the set {1, 2, 3, 4}. -/
theorem attendance_keys_counterexample :
    ((getClassAttendance demoAttendanceRows).absent.map Prod.fst =
      [AKey.idx 0, AKey.idx 1, AKey.idx 2, AKey.idx 3, AKey.total]) ∧
    AKey.idx 4 ∉ ((getClassAttendance demoAttendanceRows).absent.map Prod.fst) ∧
    AKey.idx 0 ∈ ((getClassAttendance demoAttendanceRows).absent.map Prod.fst) := by
  refine ⟨rfl, ?_, ?_⟩ <;> decide

/-- C3 amended: grade records are keyed by exactly {1,2,3,4}; the per-term
    attendance counts are keyed by exactly {0,1,2,3} plus "total" (for any
    three-row attendance grid of label + five cells). -/
theorem attendance_and_grade_keys (rows : List (List String))
    (l0 a1 a2 a3 a4 a5 l1 b1 b2 b3 b4 b5 l2 c1 c2 c3 c4 c5 : String) :
    ((getClassAttendance
        [[l0, a1, a2, a3, a4, a5], [l1, b1, b2, b3, b4, b5],
         [l2, c1, c2, c3, c4, c5]]).absent.map Prod.fst =
      [AKey.idx 0, AKey.idx 1, AKey.idx 2, AKey.idx 3, AKey.total]) ∧
    ((getClassAttendance
        [[l0, a1, a2, a3, a4, a5], [l1, b1, b2, b3, b4, b5],
         [l2, c1, c2, c3, c4, c5]]).tardy.map Prod.fst =
      [AKey.idx 0, AKey.idx 1, AKey.idx 2, AKey.idx 3, AKey.total]) ∧
    ((getClassAttendance
        [[l0, a1, a2, a3, a4, a5], [l1, b1, b2, b3, b4, b5],
         [l2, c1, c2, c3, c4, c5]]).dismissed.map Prod.fst =
      [AKey.idx 0, AKey.idx 1, AKey.idx 2, AKey.idx 3, AKey.total]) ∧
    (getClassGrades rows).map Prod.fst = [1, 2, 3, 4] :=
  ⟨rfl, rfl, rfl, getClassGrades_keys rows⟩

/-- C4: the code's `.slice(0, -1)` on the grades grid drops only the final
    row, so on a grid with the documented two trailing summary rows the
    "Gradebook Average" row is still among the decoded rows (seven rows are
    processed, not six), contradicting the comment "cut off the last 2
    rows, 'Gradebook Average' and 'Last Posted Grade'". -/
theorem gradeRows_slice_keeps_seven :
    (gradeDataRows demoGradeRows).length = 7 ∧
    ["Gradebook Average", "83.0%", "83.0%", "83.0%", "83.0%"] ∈
      gradeDataRows demoGradeRows ∧
    ["Last Posted Grade", "B", "B", "B", "B"] ∉ gradeDataRows demoGradeRows := by
  refine ⟨rfl, ?_, ?_⟩ <;> decide

/-! ### getClasses: the class list grid (#dataGrid .listCell) -/

/-- A class-list cell: its trimmed-on-read text content and, for the token
    column, the id attribute of children[1] (the checkbox input). -/
structure LCell where
  text : String
  childId : String
deriving DecidableEq

/-- A decoded class-list value: a string, or a number (none models NaN). -/
inductive CVal where
  | str (s : String)
  | num (q : Option ℚ)
deriving DecidableEq

/-- The generic numeric-coercion step:
    `if (!isNaN(data) && !isNaN(parseFloat(data))) data = Number(data)`.
    A number passes both checks and Number() returns it unchanged (NaN
    fails the first check and stays NaN); a string is converted exactly
    when Number() parses it fully and parseFloat finds a numeric prefix. -/
def coerceNumeric : CVal → CVal
  | .num q => .num q
  | .str s =>
    match jsNumber s, jsParseFloat s with
    | some q, some _ => .num (some q)
    | _, _ => .str s

structure ClassInfo where
  token : Option CVal
  name : Option CVal
  course : Option CVal
  term : Option CVal
  teacher : Option CVal
  email : Option CVal
  classroom : Option CVal
  letterGrade : Option CVal
  grade : Option CVal
  absent : Option CVal
  tardy : Option CVal
  dismissed : Option CVal
deriving DecidableEq

def initClassInfo : ClassInfo :=
  ⟨none, none, none, none, none, none, none, none, none, none, none, none⟩

/-- The classDataFields column map; index 7 is null (the school-name
    column) and is skipped. -/
def classDataFields : List (Option String) :=
  [some "token", some "name", some "course", some "term", some "teacher",
   some "email", some "classroom", none, some "grade", some "absent",
   some "tardy", some "dismissed"]

def setClassField (ci : ClassInfo) (field : String) (v : CVal) : ClassInfo :=
  match field with
  | "token" => { ci with token := some v }
  | "name" => { ci with name := some v }
  | "course" => { ci with course := some v }
  | "term" => { ci with term := some v }
  | "teacher" => { ci with teacher := some v }
  | "email" => { ci with email := some v }
  | "classroom" => { ci with classroom := some v }
  | "grade" => { ci with grade := some v }
  | "absent" => { ci with absent := some v }
  | "tardy" => { ci with tardy := some v }
  | "dismissed" => { ci with dismissed := some v }
  | _ => ci

/-- One roster cell, exactly as in getClasses: cells beyond the field map
    are skipped (classDataFields[i] undefined is falsy); the token column
    reads children[1].id instead of the text; the grade column splits the
    combined text on a space, takes Number(parts[0]) as the grade and
    writes parts[1] raw into letterGrade; every value then passes the
    numeric-coercion step. -/
def decodeClassesCell (ci : ClassInfo) (i : Nat) (elem : LCell) : ClassInfo :=
  match classDataFields.getD i none with
  | none => ci
  | some field =>
    if field == "token" then
      setClassField ci "token" (coerceNumeric (.str elem.childId))
    else if field == "grade" then
      let parts := jsSplit (jsTrim elem.text) " "
      let ci1 := { ci with letterGrade := (parts.get? 1).map CVal.str }
      setClassField ci1 "grade" (coerceNumeric (.num (jsNumber (parts.getD 0 ""))))
    else
      setClassField ci field (coerceNumeric (.str (jsTrim elem.text)))

/-- One row of the class list grid. -/
def getClassesRow (cells : List LCell) : ClassInfo :=
  cells.enum.foldl (fun ci x => decodeClassesCell ci x.1 x.2) initClassInfo

/-- A concrete roster row with the combined grade cell's text a parameter;
    the other columns are token, name, course, term, teacher, email, room,
    school name (ignored), then the three attendance counts. -/
def demoRosterCells (gradeText : String) : List LCell :=
  [⟨"", "MMS2000012345"⟩, ⟨"Algebra I", ""⟩, ⟨"MA101-1", ""⟩, ⟨"FY", ""⟩,
   ⟨"John Smith", ""⟩, ⟨"jsmith@school.edu", ""⟩, ⟨"B140", ""⟩,
   ⟨"Springfield High", ""⟩, ⟨gradeText, ""⟩, ⟨"2", ""⟩, ⟨"1", ""⟩, ⟨"0", ""⟩]

/-- C8 counterexample: a combined grade cell rendering "A 95" (letter
    first) decodes to letterGrade "95" and grade NaN -- not to grade 95
    with letterGrade "A" as the claim states, because the code takes
    Number(parts[0]) as the numeric grade and parts[1] as the letter. -/
theorem classlist_grade_split_counterexample :
    (getClassesRow (demoRosterCells "A 95")).letterGrade = some (CVal.str "95") ∧
    (getClassesRow (demoRosterCells "A 95")).grade = some (CVal.num none) ∧
    ¬((getClassesRow (demoRosterCells "A 95")).grade = some (CVal.num (some 95)) ∧
      (getClassesRow (demoRosterCells "A 95")).letterGrade = some (CVal.str "A")) := by
  refine ⟨rfl, rfl, fun h => ?_⟩
  have h1 := h.1
  rw [show (getClassesRow (demoRosterCells "A 95")).grade = some (CVal.num none) from rfl]
    at h1
  simp at h1

/-- C8 amended: the combined grade cell renders the number first ("95 A");
    such a roster row decodes to the claimed record, with grade 95 and
    letterGrade "A" in the correct fields. -/
theorem classlist_row_decode :
    getClassesRow (demoRosterCells "95 A") =
      { token := some (.str "MMS2000012345"), name := some (.str "Algebra I"),
        course := some (.str "MA101-1"), term := some (.str "FY"),
        teacher := some (.str "John Smith"),
        email := some (.str "jsmith@school.edu"),
        classroom := some (.str "B140"), letterGrade := some (.str "A"),
        grade := some (.num (some 95)), absent := some (.num (some 2)),
        tardy := some (.num (some 1)), dismissed := some (.num (some 0)) } := by
  rfl

/-! ### getAssignments: the assignment list grid -/

/-- An assignment-row cell: its text content and the texts of the td
    elements of the nested sub-table inside it (querySelectorAll("td");
    empty for ordinary cells). -/
structure ACell where
  text : String
  tds : List String
deriving DecidableEq

/-- A decoded assignment value: a string, or a number (none models NaN). -/
inductive AVal where
  | str (s : String)
  | num (q : Option ℚ)
deriving DecidableEq

structure AssignmentRec where
  name : Option String
  dateAssigned : Option String
  dateDue : Option String
  schedule : Option String
  grade : Option AVal
  score : Option AVal
  points : Option AVal
  feedback : Option String
deriving DecidableEq

def initAssignmentRec : AssignmentRec :=
  ⟨none, none, none, none, none, none, none, none⟩

/-- The assignmentFields column map; index 0 is null (the checkbox). -/
def assignmentFields : List (Option String) :=
  [none, some "name", some "dateAssigned", some "dateDue", some "schedule",
   some "grade", some "feedback"]

def setAssignmentField (r : AssignmentRec) (field : String) (v : String) :
    AssignmentRec :=
  match field with
  | "name" => { r with name := some v }
  | "dateAssigned" => { r with dateAssigned := some v }
  | "dateDue" => { r with dateDue := some v }
  | "schedule" => { r with schedule := some v }
  | "feedback" => { r with feedback := some v }
  | _ => r

/-- One assignment cell, exactly as in getAssignments: a grade cell whose
    sub-table has exactly one td sets score, points and grade to the
    literal "Ungraded"; otherwise td 0 is Number(trim.slice(0,-1)) (the
    percentage), td 1 is the verbatim trimmed score text, and td 2 is
    Number(trim.slice(1,-1)) (the parenthetical points, always
    Number-coerced). -/
def decodeAssignmentCell (r : AssignmentRec) (i : Nat) (elem : ACell) :
    AssignmentRec :=
  match assignmentFields.getD i none with
  | none => r
  | some field =>
    if field == "grade" then
      if elem.tds.length == 1 then
        { r with score := some (.str "Ungraded"), points := some (.str "Ungraded"),
                 grade := some (.str "Ungraded") }
      else
        let r1 := elem.tds.enum.foldl
          (fun acc td =>
            if td.1 == 1 then { acc with score := some (.str (jsTrim td.2)) }
            else if td.1 == 2 then
              { acc with points := some (.num (jsNumber (sliceInner (jsTrim td.2)))) }
            else acc)
          r
        let data : AVal :=
          match elem.tds.get? 0 with
          | some t0 => .num (jsNumber (dropLastChar (jsTrim t0)))
          | none => .str (jsTrim elem.text)
        { r1 with grade := some data }
    else setAssignmentField r field (jsTrim elem.text)

/-- One row of the assignment list grid. -/
def getAssignmentsRow (cells : List ACell) : AssignmentRec :=
  cells.enum.foldl (fun r x => decodeAssignmentCell r x.1 x.2) initAssignmentRec

def demoACell : ACell := ⟨"", []⟩

/-- C7: an assignment row whose grade cell holds a single-row sub-table
    decodes with score, points and grade all set to the literal marker
    "Ungraded". -/
theorem assignments_ungraded_cell_decode (d0 d1 d2 d3 d4 d6 : ACell)
    (gtext td : String) :
    ((getAssignmentsRow [d0, d1, d2, d3, d4, ⟨gtext, [td]⟩, d6]).score =
      some (AVal.str "Ungraded")) ∧
    ((getAssignmentsRow [d0, d1, d2, d3, d4, ⟨gtext, [td]⟩, d6]).points =
      some (AVal.str "Ungraded")) ∧
    ((getAssignmentsRow [d0, d1, d2, d3, d4, ⟨gtext, [td]⟩, d6]).grade =
      some (AVal.str "Ungraded")) :=
  ⟨rfl, rfl, rfl⟩

/-- C6 counterexample: a three-row grade sub-table whose parenthetical
    points text is the non-numeric marker "(WS)" decodes to points NaN --
    the literal text "WS" is not kept (the isNaN fallback existed only in
    the superseded plain-JS iteration). -/
theorem assignments_points_ws_counterexample :
    ((getAssignmentsRow [demoACell, demoACell, demoACell, demoACell, demoACell,
        ⟨"", ["90%", "9.0 / 10.0", "(WS)"]⟩, demoACell]).points =
      some (AVal.num none)) ∧
    ((getAssignmentsRow [demoACell, demoACell, demoACell, demoACell, demoACell,
        ⟨"", ["90%", "9.0 / 10.0", "(WS)"]⟩, demoACell]).points ≠
      some (AVal.str "WS")) := by
  refine ⟨rfl, fun h => ?_⟩
  rw [show (getAssignmentsRow [demoACell, demoACell, demoACell, demoACell, demoACell,
        ⟨"", ["90%", "9.0 / 10.0", "(WS)"]⟩, demoACell]).points =
      some (AVal.num none) from rfl] at h
  simp at h

/-- C6 amended: a three-row grade sub-table decodes, in order, to the
    numeric percentage with the trailing percent sign stripped, the
    verbatim trimmed score text, and the parenthesis-stripped points value,
    which is always Number-coerced: a number when it parses numerically,
    NaN when it does not. -/
theorem assignments_graded_cell_decode (d0 d1 d2 d3 d4 d6 : ACell)
    (gtext g sc p : String) (gq : ℚ)
    (hg : jsNumber (dropLastChar (jsTrim g)) = some gq) :
    ((getAssignmentsRow [d0, d1, d2, d3, d4, ⟨gtext, [g, sc, p]⟩, d6]).grade =
      some (AVal.num (some gq))) ∧
    ((getAssignmentsRow [d0, d1, d2, d3, d4, ⟨gtext, [g, sc, p]⟩, d6]).score =
      some (AVal.str (jsTrim sc))) ∧
    (∀ q, jsNumber (sliceInner (jsTrim p)) = some q →
      (getAssignmentsRow [d0, d1, d2, d3, d4, ⟨gtext, [g, sc, p]⟩, d6]).points =
        some (AVal.num (some q))) ∧
    (jsNumber (sliceInner (jsTrim p)) = none →
      (getAssignmentsRow [d0, d1, d2, d3, d4, ⟨gtext, [g, sc, p]⟩, d6]).points =
        some (AVal.num none)) := by
  refine ⟨?_, rfl, fun q hq => ?_, fun hq => ?_⟩
  · rw [show (getAssignmentsRow [d0, d1, d2, d3, d4, ⟨gtext, [g, sc, p]⟩, d6]).grade =
        some (AVal.num (jsNumber (dropLastChar (jsTrim g)))) from rfl, hg]
  · rw [show (getAssignmentsRow [d0, d1, d2, d3, d4, ⟨gtext, [g, sc, p]⟩, d6]).points =
        some (AVal.num (jsNumber (sliceInner (jsTrim p)))) from rfl, hq]
  · rw [show (getAssignmentsRow [d0, d1, d2, d3, d4, ⟨gtext, [g, sc, p]⟩, d6]).points =
        some (AVal.num (jsNumber (sliceInner (jsTrim p)))) from rfl, hq]

/-- C6 witness: the example graded cell "90%", "9.0 / 10.0", "(9.0)"
    decodes to grade 90, score "9.0 / 10.0", points 9. -/
theorem assignments_graded_cell_decode_witness :
    ((getAssignmentsRow [demoACell, demoACell, demoACell, demoACell, demoACell,
        ⟨"", ["90%", "9.0 / 10.0", "(9.0)"]⟩, demoACell]).grade =
      some (AVal.num (some 90))) ∧
    ((getAssignmentsRow [demoACell, demoACell, demoACell, demoACell, demoACell,
        ⟨"", ["90%", "9.0 / 10.0", "(9.0)"]⟩, demoACell]).score =
      some (AVal.str "9.0 / 10.0")) ∧
    ((getAssignmentsRow [demoACell, demoACell, demoACell, demoACell, demoACell,
        ⟨"", ["90%", "9.0 / 10.0", "(9.0)"]⟩, demoACell]).points =
      some (AVal.num (some 9))) := by
  have h := assignments_graded_cell_decode demoACell demoACell demoACell demoACell
    demoACell demoACell "" "90%" "9.0 / 10.0" "(9.0)" 90 rfl
  exact ⟨h.1, h.2.1, h.2.2.1 9 rfl⟩

/-! ### login: classification of the POST outcome -/

/-- The shape of a got error as far as login's catch inspects it: the
    instanceof RequestError and instanceof HTTPError facts and the code
    property.  (In got, HTTPError is a subclass of RequestError, so a
    non-2xx/3xx response has both flags true.) -/
structure GotError where
  isRequestError : Bool
  isHTTPError : Bool
  code : String
deriving DecidableEq

inductive LoginOutcome where
  | success
  | connectionError
  | generic500
  | invalidLogin
  | invalidSession
  | rethrown
deriving DecidableEq

/-- The TypeScript login's outcome classification: a RequestError throws
    "Unable to connect to Aspen" (ConnectionError), otherwise an HTTPError
    with the non-2xx/3xx code throws "Aspen returned 500 Server Error"
    (Generic500), otherwise the error is rethrown; a delivered body is
    scanned for the invalid-login and not-logged-on markers. -/
def loginClassifyTS : Except GotError String → LoginOutcome
  | .error e =>
    if e.isRequestError then .connectionError
    else if e.isHTTPError && e.code == "ERR_NON_2XX_3XX_RESPONSE" then .generic500
    else .rethrown
  | .ok body =>
    if jsIncludes body "Invalid login." then .invalidLogin
    else if jsIncludes body "Not logged on" then .invalidSession
    else .success

/-- The superseded plain-JS login's classification: any error whose code is
    not ERR_NON_2XX_3XX_RESPONSE is rethrown, the rest are swallowed and
    login returns normally; no body markers are checked. -/
def loginClassifyJS : Except GotError String → LoginOutcome
  | .error e => if e.code != "ERR_NON_2XX_3XX_RESPONSE" then .rethrown else .success
  | .ok _ => .success

/-- The benign post-login condition: the mis-dispatched redirect surfaces
    as a got HTTPError (hence also a RequestError) carrying the
    non-2xx/3xx code. -/
def benignRedirectError : GotError := ⟨true, true, "ERR_NON_2XX_3XX_RESPONSE"⟩

/-- C5 counterexample: the current (TypeScript) login does not swallow the
    benign redirect mis-dispatch -- it raises ConnectionError (the
    RequestError branch shadows the HTTPError branch, since HTTPError is a
    RequestError subclass); even if the instanceof RequestError check were
    false, the outcome would be Generic500, not success.  Only the
    superseded plain-JS iteration returned success here. -/
theorem login_benign_redirect_not_swallowed :
    loginClassifyTS (.error benignRedirectError) = LoginOutcome.connectionError ∧
    loginClassifyTS (.error benignRedirectError) ≠ LoginOutcome.success ∧
    loginClassifyTS (.error ⟨false, true, "ERR_NON_2XX_3XX_RESPONSE"⟩) =
      LoginOutcome.generic500 ∧
    loginClassifyJS (.error benignRedirectError) = LoginOutcome.success := by
  refine ⟨rfl, ?_, rfl, rfl⟩
  intro h
  simp [loginClassifyTS, benignRedirectError] at h

/-- C5 amended: login never swallows a failed POST.  Any RequestError
    (which, in got, includes every HTTPError) raises ConnectionError; a
    non-RequestError HTTPError with the non-2xx/3xx code would raise
    Generic500; success only for a delivered body free of the
    invalid-login and not-logged-on markers. -/
theorem login_error_classification (e : GotError) (b : String) :
    (e.isRequestError = true →
      loginClassifyTS (.error e) = LoginOutcome.connectionError) ∧
    (e.isRequestError = false → e.isHTTPError = true →
      e.code = "ERR_NON_2XX_3XX_RESPONSE" →
      loginClassifyTS (.error e) = LoginOutcome.generic500) ∧
    (jsIncludes b "Invalid login." = false → jsIncludes b "Not logged on" = false →
      loginClassifyTS (.ok b) = LoginOutcome.success) := by
  refine ⟨fun h => ?_, fun h1 h2 h3 => ?_, fun h1 h2 => ?_⟩
  · simp [loginClassifyTS, h]
  · simp [loginClassifyTS, h1, h2, h3]
  · simp [loginClassifyTS, h1, h2]

/-- C5 witness: the amended classification at concrete inputs. -/
theorem login_error_classification_witness :
    loginClassifyTS (.error benignRedirectError) = LoginOutcome.connectionError ∧
    loginClassifyTS (.ok "<html>Welcome back</html>") = LoginOutcome.success :=
  ⟨(login_error_classification benignRedirectError "").1 rfl,
   (login_error_classification ⟨true, true, ""⟩ "<html>Welcome back</html>").2.2 rfl rfl⟩

/-! ### getSchedule: the schedule matrix page -/

/-- A day-header cell (.inputGridHeader.inputGridColumnHeader): its text
    ("CODE - FullName") and its style attribute. -/
structure HeaderCell where
  text : String
  style : String
deriving DecidableEq

/-- One schedule matrix entry cell: its innerHTML and whether the fourth
    structural ancestor element carries a border style. -/
structure SPeriodCell where
  html : String
  hasBorder : Bool
deriving DecidableEq

/-- A schedule matrix page: the day-header cells, and for each column index
    i the td cells matched by the nth-child(i+2) selector. -/
structure SchedulePage where
  headers : List HeaderCell
  columns : List (List SPeriodCell)

/-- `header.textContent.trim().split(/\s/g)[0]`: the leading run of
    non-whitespace characters of the trimmed text. -/
def dayID (h : HeaderCell) : String :=
  String.mk ((jsTrim h.text).toList.takeWhile (fun c => !(isSpaceChar c)))

/-- `header.getAttribute("style")?.includes("red")`. -/
def styleHasRed (h : HeaderCell) : Bool := jsIncludes h.style "red"

/-- JS object key insertion: `schedule[dayID] = []` adds the key at the end
    if new, otherwise leaves the key set and order unchanged. -/
def addKey (ks : List String) (k : String) : List String :=
  if ks.contains k then ks else ks ++ [k]

structure SchedPeriod where
  course : Option String
  name : Option String
  teacher : Option String
  room : Option String
  currentPeriod : Bool
deriving DecidableEq

/-- One matrix cell decoded: `innerHTML.trim().split("<br>")` filled into
    course, name, teacher, room (missing entries stay undefined), and
    currentPeriod from the ancestor border. -/
def mkPeriod (c : SPeriodCell) : SchedPeriod :=
  let parts := jsSplit (jsTrim c.html) "<br>"
  ⟨parts.get? 0, parts.get? 1, parts.get? 2, parts.get? 3, c.hasBorder⟩

structure ScheduleResult where
  days : List (String × List SchedPeriod)
  currentDay : Option String
  currentClass : Option SchedPeriod
deriving DecidableEq

/-- getSchedule: discover the day keys from the headers (set currentDay on
    a red-styled header), then for key index i decode column i; the last
    bordered cell (in iteration order) becomes currentClass. -/
def getSchedule (p : SchedulePage) : ScheduleResult :=
  let currentDay := p.headers.foldl
    (fun acc h => if styleHasRed h then some (dayID h) else acc) none
  let dayKeys := p.headers.foldl (fun ks h => addKey ks (dayID h)) []
  let days := (List.range dayKeys.length).map
    (fun i => (dayKeys.getD i "", (p.columns.getD i []).map mkPeriod))
  let currentClass := (days.map Prod.snd).flatten.foldl
    (fun acc per => if per.currentPeriod then some per else acc) none
  ⟨days, currentDay, currentClass⟩

def borderCount (col : List SPeriodCell) : Nat :=
  (col.filter (fun c => c.hasBorder)).length

/-- The number of bordered cells on the whole page. -/
def borderTotal (p : SchedulePage) : Nat := (p.columns.map borderCount).sum

def optCount {α : Type} : Option α → Nat
  | none => 0
  | some _ => 1

/-- The number of periods flagged currentPeriod in a result. -/
def currentPeriodCount (r : ScheduleResult) : Nat :=
  (r.days.map (fun d => (d.2.filter (fun per => per.currentPeriod)).length)).sum

theorem addKey_foldl_nodup (l : List String) (acc : List String)
    (hnd : l.Nodup) (hdisj : ∀ x ∈ l, x ∉ acc) :
    l.foldl addKey acc = acc ++ l := by
  induction l generalizing acc with
  | nil => simp
  | cons x xs ih =>
    rw [List.foldl_cons]
    have hmem : x ∉ acc := hdisj x (List.mem_cons_self x xs)
    have hx : addKey acc x = acc ++ [x] := by
      simp [addKey, hmem]
    have hdisj2 : ∀ y ∈ xs, y ∉ acc ++ [x] := by
      intro y hy
      simp only [List.mem_append, List.mem_singleton]
      rintro (hya | rfl)
      · exact hdisj y (List.mem_cons_of_mem x hy) hya
      · exact (List.nodup_cons.mp hnd).1 hy
    rw [hx, ih (acc ++ [x]) (List.nodup_cons.mp hnd).2 hdisj2, List.append_assoc]
    rfl

theorem sum_range_getD_borderCount (cs : List (List SPeriodCell)) (n : Nat) :
    ((List.range n).map (fun i => borderCount (cs.getD i []))).sum =
      ((cs.take n).map borderCount).sum := by
  induction n with
  | zero => simp
  | succ n ih =>
    rw [List.range_succ, List.map_append, List.sum_append, ih, List.take_succ,
      List.map_append, List.sum_append]
    cases h : cs[n]? <;> simp [List.getD, h, borderCount]

theorem sum_take_le_borderCount (cs : List (List SPeriodCell)) (n : Nat) :
    ((cs.take n).map borderCount).sum ≤ (cs.map borderCount).sum := by
  conv_rhs => rw [← List.take_append_drop n cs]
  rw [List.map_append, List.sum_append]
  exact Nat.le_add_right _ _

/-- C9: on a matrix page whose day codes are pairwise distinct, do not
    collide with the two management keys, and which marks at most one cell
    with the ancestor border, the result has exactly one day entry per
    header cell, flags at most one current day, and flags at most one
    current period. -/
theorem getSchedule_day_and_current_counts (p : SchedulePage)
    (hnd : (p.headers.map dayID).Nodup)
    (_hmgmt : ∀ h ∈ p.headers, dayID h ≠ "currentDay" ∧ dayID h ≠ "currentClass")
    (hb : borderTotal p ≤ 1) :
    (getSchedule p).days.length = p.headers.length ∧
    optCount (getSchedule p).currentDay ≤ 1 ∧
    currentPeriodCount (getSchedule p) ≤ 1 := by
  have hfold : p.headers.foldl (fun ks h => addKey ks (dayID h)) [] =
      p.headers.map dayID := by
    have h1 : (p.headers.map dayID).foldl addKey [] =
        p.headers.foldl (fun ks h => addKey ks (dayID h)) [] :=
      List.foldl_map dayID addKey p.headers []
    rw [← h1, addKey_foldl_nodup (p.headers.map dayID) [] hnd (by simp)]
    simp
  refine ⟨?_, ?_, ?_⟩
  · simp [getSchedule, hfold]
  · cases hcd : (getSchedule p).currentDay <;> simp [optCount]
  · have hcp : currentPeriodCount (getSchedule p) =
        ((List.range (p.headers.map dayID).length).map
          (fun i => borderCount (p.columns.getD i []))).sum := by
      simp only [currentPeriodCount, getSchedule, hfold, List.map_map]
      congr 1
      apply List.map_congr_left
      intro i _
      simp only [Function.comp]
      rw [List.filter_map]
      simp only [List.length_map, borderCount]
      congr 1
    rw [hcp, sum_range_getD_borderCount]
    exact le_trans (sum_take_le_borderCount _ _) hb

/-- A concrete two-day matrix page: Tuesday's header carries the red
    border style, and exactly one cell (in Tuesday's column) carries the
    ancestor border. -/
def demoSchedulePage : SchedulePage :=
  ⟨[⟨"M - Monday", ""⟩, ⟨"T - Tuesday", "border: 2px solid red"⟩],
   [[⟨"MA101<br>Algebra I<br>Smith, John<br>B140", false⟩],
    [⟨"EN201<br>English II<br>Jones, Ann<br>C202", true⟩]]⟩

/-- C9 witness: the day/current-flag counts on the concrete matrix page. -/
theorem getSchedule_day_and_current_counts_witness :
    (getSchedule demoSchedulePage).days.length = demoSchedulePage.headers.length ∧
    optCount (getSchedule demoSchedulePage).currentDay ≤ 1 ∧
    currentPeriodCount (getSchedule demoSchedulePage) ≤ 1 :=
  getSchedule_day_and_current_counts demoSchedulePage (by decide) (by decide) (by decide)
